import Mathlib

/-!
Verification of the AC_Timer firmware repository (nsayer/AC_Timer).

The repository contains several variants of the same firmware:

* `AC_Timer.c` — a decisecond-tick variant: a skip-zero 16-bit tick counter,
  a sentinel-based debouncer (`debounce_time == 0` means "not waiting"), and a
  main loop whose timeout guards compare `elapsed_minutes` (ticks / 600)
  against `POWER_OFF_TIME = 30` and `WARN_TIME = 25` with strict `>`.
* the first unnamed file — a millisecond variant with a skip-zero 32-bit
  (`unsigned long`) counter and the same sentinel debouncer.
* the second unnamed file — a seconds variant: a plain-wrap millisecond
  counter cascading into a seconds counter, a debouncer with an explicit
  `in_debounce` flag and a signed mod-1000 delta, and a main loop comparing
  `now - power_on_time >= POWER_OFF_TIME` (1800 s) and `>= WARN_TIME` (1500 s)
  on 16-bit seconds.
* `Intellitimer_v2.c` — two files: a boot-triggered variant that powers the
  system at reset, turns everything off for good at `POWER_OFF_TIME = 21600` s
  and duty-cycles the load with `now % 223 < 120`; and a button variant that
  duty-cycles with `(now - power_on_time) % 223 < 60` while the LED is on.

All machine integers are embedded as `Nat` with explicit reductions modulo
`2 ^ 16` (or `2 ^ 32`) exactly where the C performs fixed-width arithmetic.
-/

/-- Unsigned 16-bit subtraction `a - b`, the value avr-gcc computes for
`uint16_t` operands (arguments are first reduced to their 16-bit value). -/
def sub16 (a b : Nat) : Nat :=
  (a % 65536 + 65536 - b % 65536) % 65536

/-- The PORTB output state of the warning-stage timer variants together with
the `power_on_time` variable: the load (opto) bit, the warning LED bit, and
the recorded start-of-ON tick. -/
structure TState where
  power : Bool
  warn : Bool
  power_on_time : Nat
  deriving DecidableEq

namespace Timer16

/-- Debounce window of the seconds variant (second unnamed file), in ms. -/
def DEBOUNCE_MILLIS : Int := 50

/-- Power-off threshold of the seconds variant: 30 * 60 seconds. -/
def POWER_OFF_TIME : Nat := 1800

/-- Warning threshold of the seconds variant: 25 * 60 seconds. -/
def WARN_TIME : Nat := 1500

/-- Debouncer state of the seconds variant: the last-accepted raw level, the
millis value at the last level change, and the awaiting-confirmation flag. -/
structure DebState where
  button_state : Bool
  debounce_time : Nat
  in_debounce : Bool
  deriving DecidableEq

/-- The delta computation of the seconds variant's `check_button`:
`int16_t delta = now - debounce_time; if (delta < 0) delta += 1000;`.
The `uint16_t` subtraction is reinterpreted as a signed 16-bit value
(two's complement) and 1000 is added when negative. -/
def debDelta (now dt : Nat) : Int :=
  let raw : Nat := sub16 now dt
  let delta : Int := if raw < 32768 then (raw : Int) else (raw : Int) - 65536
  if delta < 0 then delta + 1000 else delta

/-- One call of the seconds variant's `check_button`.  `raw` is the sampled
`status = !(PINB & BIT_BUTTON)` (true means the active-low button reads low,
i.e. pressed); `now` is the current `millis()` value.  Returns the updated
static state and the returned value interpreted as a Bool (nonzero return). -/
def check_button (s : DebState) (now : Nat) (raw : Bool) : DebState × Bool :=
  if raw ≠ s.button_state then
    ({ button_state := raw, debounce_time := now, in_debounce := true }, false)
  else if s.in_debounce = false then
    (s, false)
  else if DEBOUNCE_MILLIS ≤ debDelta now s.debounce_time then
    ({ s with in_debounce := false }, raw)
  else
    (s, false)

/-- Run `check_button` over a list of `(millis, raw)` samples, collecting the
returned values in order. -/
def runReports (s : DebState) : List (Nat × Bool) → List Bool
  | [] => []
  | sample :: rest =>
    let r := check_button s sample.1 sample.2
    r.2 :: runReports r.1 rest

/-- Number of nonzero returns of `check_button` over a sample list. -/
def countReports (s : DebState) (l : List (Nat × Bool)) : Nat :=
  (runReports s l).count true

/-- Samples of a constant raw level `b` taken at millis values
`(t + j) % 1000, (t + j + 1) % 1000, …` (`m` samples). -/
def stableFrom (t : Nat) (b : Bool) (j m : Nat) : List (Nat × Bool) :=
  (List.range m).map (fun i => ((t + j + i) % 1000, b))

/-- Samples of a constant raw level `b` at millis values
`(t + 1) % 1000, …, (t + n) % 1000`: the level holds for `n` more
time units after a change at time `t`. -/
def stableTrace (t : Nat) (b : Bool) (n : Nat) : List (Nat × Bool) :=
  stableFrom t b 1 n

/-- Spec end-to-end scenario 3: the raw level bounces to pressed at time 1,
back to released at time 11, to pressed again at time 21, and then holds
pressed through time 100. -/
def bounceTrace : List (Nat × Bool) :=
  ((List.range 10).map (fun i => (1 + i, true))) ++
    ((List.range 10).map (fun i => (11 + i, false))) ++
    ((List.range 80).map (fun i => (21 + i, true)))

/-- A single release transition at time 1, held stable through time 60
(well past the 50 ms debounce window). -/
def releaseTrace : List (Nat × Bool) :=
  (List.range 60).map (fun i => (1 + i, false))

/-- One iteration of the seconds variant's main loop after `wdt_reset()`:
`now` is the `seconds()` read, `pressed` the truth value of `check_button()`.
Mirrors the branch structure of the source (each branch is a `continue`). -/
def loopStep (s : TState) (now : Nat) (pressed : Bool) : TState :=
  if pressed = true then
    if s.power = true then
      if s.warn = true then
        { s with warn := false, power_on_time := now }
      else
        { s with power := false, warn := false }
    else
      { s with power := true, power_on_time := now }
  else if s.power = true ∧ POWER_OFF_TIME ≤ sub16 now s.power_on_time then
    { s with power := false, warn := false }
  else if (s.power = true ∧ s.warn = false) ∧ WARN_TIME ≤ sub16 now s.power_on_time then
    { s with warn := true }
  else
    s

/-- Iterate `loopStep` over a list of `seconds()` readings with the button
never reporting a press. -/
def runTimer (s : TState) (nows : List Nat) : TState :=
  nows.foldl (fun s2 n => loopStep s2 n false) s

end Timer16

namespace ACTimer

/-- Debounce window of `AC_Timer.c`, in deciseconds. -/
def DEBOUNCE_TIME : Nat := 1

/-- Power-off threshold of `AC_Timer.c`, in minutes. -/
def POWER_OFF_TIME : Nat := 30

/-- Warning threshold of `AC_Timer.c`, in minutes. -/
def WARN_TIME : Nat := 25

/-- Debouncer state of `AC_Timer.c`: the last-accepted raw level and the tick
of the last change, where `debounce_time = 0` is the sentinel for "not
waiting to report" (the skip-zero tick counter never reads 0). -/
structure DebState where
  button_state : Bool
  debounce_time : Nat
  deriving DecidableEq

/-- One call of `AC_Timer.c`'s `check_button` (sentinel flavour): report when
`now - debounce_time > DEBOUNCE_TIME` in 16-bit unsigned arithmetic. -/
def check_button (s : DebState) (now : Nat) (raw : Bool) : DebState × Bool :=
  if raw ≠ s.button_state then
    ({ button_state := raw, debounce_time := now }, false)
  else if s.debounce_time = 0 then
    (s, false)
  else if DEBOUNCE_TIME < sub16 now s.debounce_time then
    ({ s with debounce_time := 0 }, raw)
  else
    (s, false)

/-- The minutes-granularity elapsed time of `AC_Timer.c`'s main loop:
`(now - power_on_time) / (10UL * 60)` on decisecond ticks. -/
def elapsed_minutes (now pot : Nat) : Nat :=
  sub16 now pot / 600

/-- One iteration of `AC_Timer.c`'s main loop: identical press handling to
the seconds variant, but timeout guards compare `elapsed_minutes` with
strict `>` against the minute thresholds. -/
def loopStep (s : TState) (now : Nat) (pressed : Bool) : TState :=
  if pressed = true then
    if s.power = true then
      if s.warn = true then
        { s with warn := false, power_on_time := now }
      else
        { s with power := false, warn := false }
    else
      { s with power := true, power_on_time := now }
  else if s.power = true ∧ POWER_OFF_TIME < elapsed_minutes now s.power_on_time then
    { s with power := false, warn := false }
  else if (s.power = true ∧ s.warn = false) ∧ WARN_TIME < elapsed_minutes now s.power_on_time then
    { s with warn := true }
  else
    s

end ACTimer

namespace Intelli

/-- Power-off threshold of both `Intellitimer_v2.c` files: 6 * 3600 seconds. -/
def POWER_OFF_TIME : Nat := 21600

/-- State of the button-driven Intellitimer variant: the LED (system on)
bit, the load MOSFET bit, and `power_on_time`. -/
structure IState where
  led : Bool
  load : Bool
  power_on_time : Nat
  deriving DecidableEq

/-- The conditional output write of the duty-cycle block:
`if (is_on ^ should_be) { … }`.  Returns the resulting output level and
whether the port was written. -/
def dutyStep (is_on should : Bool) : Bool × Bool :=
  if is_on ≠ should then (should, true) else (is_on, false)

/-- Desired load level of the button variant's duty cycle:
`((now - power_on_time) % 223) < 60`, applied to the 16-bit elapsed time. -/
def intelliDuty (e : Nat) : Bool :=
  decide (e % 223 < 60)

/-- One iteration of the button-variant `Intellitimer_v2` main loop. -/
def intelliStep (s : IState) (now : Nat) (pressed : Bool) : IState :=
  if pressed = true then
    { led := true, load := true, power_on_time := now }
  else if s.led = true ∧ POWER_OFF_TIME ≤ sub16 now s.power_on_time then
    { s with led := false, load := false }
  else if s.led = true then
    { s with load := (dutyStep s.load (intelliDuty (sub16 now s.power_on_time))).1 }
  else
    s

end Intelli

/-- State of the boot-triggered Intellitimer variant: the load MOSFET bit,
the system-power bit, and whether the terminal wait-to-die loop has been
entered (the inner `while(1) wdt_reset();`). -/
structure BootState where
  load : Bool
  syspower : Bool
  dead : Bool
  deriving DecidableEq

namespace Boot

/-- Power-off threshold of the boot variant: 6 * 3600 seconds. -/
def POWER_OFF_TIME : Nat := 21600

/-- Desired load level of the boot variant's duty cycle: `(now % 223) < 120`. -/
def bootDuty (e : Nat) : Bool :=
  decide (e % 223 < 120)

/-- One iteration of the boot-variant `Intellitimer_v2` main loop; once the
terminal loop is entered the iteration only feeds the watchdog. -/
def bootStep (s : BootState) (now : Nat) : BootState :=
  if s.dead = true then
    s
  else if POWER_OFF_TIME ≤ now % 65536 then
    { load := false, syspower := false, dead := true }
  else
    { s with load := (Intelli.dutyStep s.load (bootDuty (now % 65536))).1 }

/-- Iterate `bootStep` over a list of `seconds()` readings. -/
def runBoot (s : BootState) (nows : List Nat) : BootState :=
  nows.foldl bootStep s

end Boot

/-- The `TIM0_COMPA` handler of `AC_Timer.c`:
`if (++ticks_cnt == 0) ticks_cnt++;` on a `uint16_t` counter. -/
def ticks_advance (c : Nat) : Nat :=
  let c1 := (c + 1) % 65536
  if c1 = 0 then (c1 + 1) % 65536 else c1

/-- The `TIM0_COMPA` handler of the first unnamed file:
`if (++millis_cnt == 0) millis_cnt++;` on an `unsigned long` counter. -/
def millis_advance (c : Nat) : Nat :=
  let c1 := (c + 1) % 4294967296
  if c1 = 0 then (c1 + 1) % 4294967296 else c1

/-! Arithmetic helper lemmas. -/

lemma sub16_self (a : Nat) : sub16 a a = 0 := by
  unfold sub16
  omega

lemma sub16_add_right (t k : Nat) (h : k < 65536) : sub16 (t + k) t = k := by
  unfold sub16
  omega

lemma debDelta_eq (a b : Nat) (ha : a ≤ 999) (hb : b ≤ 999) :
    Timer16.debDelta a b = (((a + 1000 - b) % 1000 : Nat) : Int) := by
  simp only [Timer16.debDelta, sub16]
  split_ifs <;> omega

lemma debDelta_window (t j : Nat) (h : j < 1000) :
    Timer16.debDelta ((t + j) % 1000) (t % 1000) = (j : Int) := by
  rw [debDelta_eq ((t + j) % 1000) (t % 1000) (by omega) (by omega)]
  have : ((t + j) % 1000 + 1000 - t % 1000) % 1000 = j := by omega
  rw [this]

/-! List-level helper lemmas. -/

lemma map_range_false {f : Nat → Bool} (h : ∀ i, f i = false) :
    ∀ m : Nat, (List.range m).map f = List.replicate m false := by
  intro m
  induction m with
  | zero => simp
  | succ m ih =>
    rw [List.range_succ, List.map_append, ih]
    simp [h m, List.replicate_succ']

lemma runReports_idle (s : Timer16.DebState) (hs : s.in_debounce = false) :
    ∀ l : List (Nat × Bool), (∀ p ∈ l, p.2 = s.button_state) →
      Timer16.runReports s l = List.replicate l.length false := by
  intro l
  induction l with
  | nil => intro _; rfl
  | cons p rest ih =>
    intro hall
    have hp : p.2 = s.button_state := hall p (by simp)
    have hrest : ∀ q ∈ rest, q.2 = s.button_state := fun q hq => hall q (by simp [hq])
    have hcb : Timer16.check_button s p.1 p.2 = (s, false) := by
      simp [Timer16.check_button, hp, hs]
    simp only [Timer16.runReports, hcb, ih hrest, List.length_cons]
    rw [List.replicate_succ]

lemma stableFrom_succ (t : Nat) (b : Bool) (j m : Nat) :
    Timer16.stableFrom t b j (m + 1) =
      ((t + j) % 1000, b) :: Timer16.stableFrom t b (j + 1) m := by
  simp only [Timer16.stableFrom, List.range_succ_eq_map, List.map_cons, List.map_map]
  refine congrArg₂ List.cons (by simp) (List.map_congr_left ?_)
  intro i _
  simp only [Function.comp_apply]
  have he : t + j + (i + 1) = t + (j + 1) + i := by omega
  rw [he]

lemma stableFrom_raw (t : Nat) (b : Bool) (j m : Nat) :
    ∀ p ∈ Timer16.stableFrom t b j m, p.2 = b := by
  intro p hp
  simp only [Timer16.stableFrom, List.mem_map] at hp
  obtain ⟨i, _, rfl⟩ := hp
  rfl

lemma runReports_stableFrom (t : Nat) (b : Bool) :
    ∀ (m j : Nat), j ≤ 50 →
      Timer16.runReports { button_state := b, debounce_time := t % 1000, in_debounce := true }
          (Timer16.stableFrom t b j m) =
        (List.range m).map (fun i => b && decide (j + i = 50)) := by
  intro m
  induction m with
  | zero => intro j _; rfl
  | succ m ih =>
    intro j hj
    rw [stableFrom_succ]
    have hd : Timer16.debDelta ((t + j) % 1000) (t % 1000) = (j : Int) :=
      debDelta_window t j (by omega)
    by_cases hj50 : j = 50
    · subst hj50
      have hcb : Timer16.check_button ⟨b, t % 1000, true⟩ ((t + 50) % 1000) b =
          (⟨b, t % 1000, false⟩, b) := by
        simp [Timer16.check_button, hd, Timer16.DEBOUNCE_MILLIS]
      simp only [Timer16.runReports, hcb]
      have hidle : Timer16.runReports ⟨b, t % 1000, false⟩ (Timer16.stableFrom t b 51 m) =
          List.replicate m false := by
        have := runReports_idle ⟨b, t % 1000, false⟩ rfl (Timer16.stableFrom t b 51 m)
          (stableFrom_raw t b 51 m)
        simpa [Timer16.stableFrom] using this
      rw [hidle, List.range_succ_eq_map, List.map_cons, List.map_map]
      have hzero : (b && decide (50 + 0 = 50)) = b := by simp
      rw [hzero]
      have htail : (List.range m).map ((fun i => b && decide (50 + i = 50)) ∘ Nat.succ) =
          List.replicate m false := by
        apply map_range_false
        intro i
        simp only [Function.comp_apply]
        have : ¬(50 + (i + 1) = 50) := by omega
        simp [this]
      rw [htail]
    · have hjlt : j < 50 := by omega
      have hnr : ¬(Timer16.DEBOUNCE_MILLIS ≤ Timer16.debDelta ((t + j) % 1000) (t % 1000)) := by
        rw [hd]
        simp only [Timer16.DEBOUNCE_MILLIS]
        exact_mod_cast by omega
      have hcb : Timer16.check_button ⟨b, t % 1000, true⟩ ((t + j) % 1000) b =
          (⟨b, t % 1000, true⟩, false) := by
        simp [Timer16.check_button, hnr]
      simp only [Timer16.runReports, hcb]
      rw [ih (j + 1) (by omega)]
      rw [List.range_succ_eq_map, List.map_cons, List.map_map]
      have hzero : (b && decide (j + 0 = 50)) = false := by simp [hj50]
      rw [hzero]
      have htail : (List.range m).map ((fun i => b && decide (j + i = 50)) ∘ Nat.succ) =
          (List.range m).map (fun i => b && decide (j + 1 + i = 50)) := by
        apply List.map_congr_left
        intro i _
        simp only [Function.comp_apply]
        have he : j + (i + 1) = j + 1 + i := by omega
        rw [he]
      rw [htail]

lemma runTimer_snoc (s : TState) (l : List Nat) (x : Nat) :
    Timer16.runTimer s (l ++ [x]) = Timer16.loopStep (Timer16.runTimer s l) x false := by
  simp [Timer16.runTimer, List.foldl_append]

lemma loopStep_tick_eval (s : TState) (now : Nat) :
    Timer16.loopStep s now false =
      if s.power = true ∧ 1800 ≤ sub16 now s.power_on_time then
        { s with power := false, warn := false }
      else if (s.power = true ∧ s.warn = false) ∧ 1500 ≤ sub16 now s.power_on_time then
        { s with warn := true }
      else s := by
  simp [Timer16.loopStep, Timer16.POWER_OFF_TIME, Timer16.WARN_TIME]

lemma runTimer_stable (t : Nat) (w : Bool) :
    ∀ k : Nat, k < 1800 →
      Timer16.runTimer ⟨true, w, t⟩ ((List.range (k + 1)).map (fun i => t + i)) =
        ⟨true, w || decide (1500 ≤ k), t⟩ := by
  intro k
  induction k with
  | zero =>
    intro _
    have hr1 : List.range 1 = [0] := rfl
    simp [Timer16.runTimer, Timer16.loopStep, hr1, sub16_self, Timer16.POWER_OFF_TIME,
      Timer16.WARN_TIME]
  | succ k ih =>
    intro hk
    have ihk := ih (by omega)
    rw [List.range_succ, List.map_append]
    simp only [List.map_cons, List.map_nil]
    rw [runTimer_snoc, ihk, loopStep_tick_eval]
    have h16 : sub16 (t + (k + 1)) t = k + 1 := sub16_add_right t (k + 1) (by omega)
    rw [h16]
    split_ifs with h1 h2
    case _ => exact absurd h1.2 (by omega)
    case _ =>
      have h15s : decide (1500 ≤ k + 1) = true := by
        simpa using h2.2
      simp only [h15s, Bool.or_true]
    case _ =>
      have hcase : (w || decide (1500 ≤ k)) = (w || decide (1500 ≤ k + 1)) := by
        by_cases hle : 1500 ≤ k
        · have hle1 : 1500 ≤ k + 1 := by omega
          simp [hle, hle1]
        · by_cases hle1 : 1500 ≤ k + 1
          · cases w with
            | true => simp
            | false =>
              exfalso
              apply h2
              refine ⟨⟨by trivial, ?_⟩, hle1⟩
              simp [hle]
          · simp [hle, hle1]
      rw [hcase]

lemma dutyStep_fst (a b : Bool) : (Intelli.dutyStep a b).1 = b := by
  cases a <;> cases b <;> simp [Intelli.dutyStep]

lemma AC_off_guard_iff (now pot : Nat) :
    ACTimer.POWER_OFF_TIME < ACTimer.elapsed_minutes now pot ↔ 18600 ≤ sub16 now pot := by
  simp only [ACTimer.POWER_OFF_TIME, ACTimer.elapsed_minutes]
  omega

lemma AC_warn_guard_iff (now pot : Nat) :
    ACTimer.WARN_TIME < ACTimer.elapsed_minutes now pot ↔ 15600 ≤ sub16 now pot := by
  simp only [ACTimer.WARN_TIME, ACTimer.elapsed_minutes]
  omega

/-! Claim theorems. -/

/-- C1: if the controller is in WARNING (load and warning outputs both asserted)
and a confirmed button press is reported, it returns to ON: `power_on_time` is
set to the current tick, the warning output is cleared, and the load output
remains asserted.  Proved for the seconds variant and for `AC_Timer.c`, whose
press handling is identical. -/
theorem C1_warning_press_snoozes :
    (∀ (s : TState) (now : Nat), s.power = true → s.warn = true →
        Timer16.loopStep s now true =
          { power := true, warn := false, power_on_time := now }) ∧
    (∀ (s : TState) (now : Nat), s.power = true → s.warn = true →
        ACTimer.loopStep s now true =
          { power := true, warn := false, power_on_time := now }) := by
  constructor
  all_goals
    intro s now hp hw
    cases s
    simp_all [Timer16.loopStep, ACTimer.loopStep]

/-- Witness for C1 at a concrete WARNING state. -/
theorem C1_witness :
    Timer16.loopStep ⟨true, true, 3⟩ 42 true = ⟨true, false, 42⟩ :=
  C1_warning_press_snoozes.1 ⟨true, true, 3⟩ 42 rfl rfl

/-- C3: when the warning output is not asserted, a confirmed press toggles the
load: from load-off the controller enters ON (load asserted, `power_on_time :=
now`); from load-on it enters OFF, clearing both outputs.  Proved for the
seconds variant and for `AC_Timer.c`. -/
theorem C3_press_toggle :
    (∀ (s : TState) (now : Nat), s.warn = false → s.power = false →
        Timer16.loopStep s now true =
          { power := true, warn := false, power_on_time := now }) ∧
    (∀ (s : TState) (now : Nat), s.warn = false → s.power = true →
        Timer16.loopStep s now true =
          { power := false, warn := false, power_on_time := s.power_on_time }) ∧
    (∀ (s : TState) (now : Nat), s.warn = false → s.power = false →
        ACTimer.loopStep s now true =
          { power := true, warn := false, power_on_time := now }) ∧
    (∀ (s : TState) (now : Nat), s.warn = false → s.power = true →
        ACTimer.loopStep s now true =
          { power := false, warn := false, power_on_time := s.power_on_time }) := by
  refine ⟨?_, ?_, ?_, ?_⟩
  all_goals
    intro s now hw hp
    cases s
    simp_all [Timer16.loopStep, ACTimer.loopStep]

/-- Witness for C3 turning the load on from OFF. -/
theorem C3_witness :
    Timer16.loopStep ⟨false, false, 0⟩ 17 true = ⟨true, false, 17⟩ :=
  C3_press_toggle.1 ⟨false, false, 0⟩ 17 rfl rfl

/-- C4: from ON with the warning output not yet asserted, an iteration whose
elapsed time has reached `WARN_TIME` but not `POWER_OFF_TIME` enters WARNING:
the warning output is asserted and the load output stays asserted; moreover
one loop iteration preserves the invariant that an asserted warning output
implies an asserted load output. -/
theorem C4_warning_stage :
    (∀ (s : TState) (now : Nat), s.power = true → s.warn = false →
        Timer16.WARN_TIME ≤ sub16 now s.power_on_time →
        sub16 now s.power_on_time < Timer16.POWER_OFF_TIME →
        Timer16.loopStep s now false =
          { power := true, warn := true, power_on_time := s.power_on_time }) ∧
    (∀ (s : TState) (now : Nat) (pressed : Bool), (s.warn = true → s.power = true) →
        (Timer16.loopStep s now pressed).warn = true →
        (Timer16.loopStep s now pressed).power = true) := by
  constructor
  · intro s now hp hw hwt hoff
    have hno : ¬(Timer16.POWER_OFF_TIME ≤ sub16 now s.power_on_time) := by omega
    cases s
    simp_all [Timer16.loopStep]
  · intro s now pressed hinv
    cases s with
    | mk p w pot =>
      simp only at hinv
      simp only [Timer16.loopStep]
      cases pressed <;> cases p <;> cases w <;>
        simp_all <;> split_ifs <;> simp_all

/-- Witness for C4 at a concrete ON state exactly at the warning threshold. -/
theorem C4_witness :
    Timer16.loopStep ⟨true, false, 0⟩ 1500 false = ⟨true, true, 0⟩ :=
  C4_warning_stage.1 ⟨true, false, 0⟩ 1500 rfl rfl (by decide) (by decide)

/-- C2: a run that starts in ON with `power_on_time = t` stays ON (load
asserted) at every tick whose 16-bit elapsed time is below `POWER_OFF_TIME`,
and the first iteration whose elapsed time reaches `POWER_OFF_TIME` moves to
OFF, clearing both the load and the warning output.  Stated per step (for an
arbitrary tick value) and for a whole run over consecutive ticks. -/
theorem C2_timeout_exact :
    (∀ (s : TState) (now : Nat), s.power = true →
        sub16 now s.power_on_time < Timer16.POWER_OFF_TIME →
        (Timer16.loopStep s now false).power = true) ∧
    (∀ (s : TState) (now : Nat), s.power = true →
        Timer16.POWER_OFF_TIME ≤ sub16 now s.power_on_time →
        Timer16.loopStep s now false =
          { power := false, warn := false, power_on_time := s.power_on_time }) ∧
    (∀ (t : Nat) (w : Bool) (k : Nat), k < Timer16.POWER_OFF_TIME →
        (Timer16.runTimer ⟨true, w, t⟩
            ((List.range (k + 1)).map (fun i => t + i))).power = true) ∧
    (∀ (t : Nat) (w : Bool),
        Timer16.runTimer ⟨true, w, t⟩
            ((List.range (Timer16.POWER_OFF_TIME + 1)).map (fun i => t + i)) =
          { power := false, warn := false, power_on_time := t }) := by
  have hstay : ∀ (s : TState) (now : Nat), s.power = true →
      sub16 now s.power_on_time < Timer16.POWER_OFF_TIME →
      (Timer16.loopStep s now false).power = true := by
    intro s now hp hlt
    have hno : ¬(Timer16.POWER_OFF_TIME ≤ sub16 now s.power_on_time) := by omega
    cases s
    simp only [Timer16.loopStep] at *
    split_ifs <;> simp_all
  refine ⟨hstay, ?_, ?_, ?_⟩
  · intro s now hp hge
    cases s
    simp_all [Timer16.loopStep]
  · intro t w k hk
    have hk18 : k < 1800 := by simpa [Timer16.POWER_OFF_TIME] using hk
    rw [runTimer_stable t w k hk18]
  · intro t w
    have h1801 : Timer16.POWER_OFF_TIME + 1 = 1800 + 1 := rfl
    rw [h1801, List.range_succ, List.map_append]
    simp only [List.map_cons, List.map_nil]
    rw [runTimer_snoc]
    have hs := runTimer_stable t w 1799 (by omega)
    have h1800 : (1799 : Nat) + 1 = 1800 := rfl
    rw [h1800] at hs
    rw [hs, loopStep_tick_eval]
    have h16 : sub16 (t + 1800) t = 1800 := sub16_add_right t 1800 (by omega)
    rw [h16]
    rw [if_pos ⟨rfl, by omega⟩]

/-- Witness for C2: one second before the threshold the load stays on; at the
threshold the step turns everything off. -/
theorem C2_witness :
    Timer16.loopStep ⟨true, true, 0⟩ 1800 false = ⟨false, false, 0⟩ :=
  C2_timeout_exact.2.1 ⟨true, true, 0⟩ 1800 rfl (by decide)

/-- C5 counterexample: a single raw transition to the released level at time 1,
held stable through time 60 — well past the 50 ms debounce window — produces
zero reports, not exactly one: `check_button` returns `status`, which is 0
when the stabilised level is released.  (The debounce window does complete:
the waiting state is cleared silently.) -/
theorem C5_counterexample :
    Timer16.countReports ⟨true, 0, false⟩ Timer16.releaseTrace ≠ 1 := by
  decide

/-- C5 (amended): the debouncer reports only after the raw level has remained
unchanged since its last change for the 50 ms window (conjunct 2); every raw
level change restarts the window at the current time and reports nothing
(conjunct 1); after a change at time `t`, holding the level stable produces a
report exactly at the sample 50 ms after the change — and that single report
is nonzero only when the stabilised level is pressed, a release completing
its window silently (conjunct 3); bounces shorter than the window produce no
report, a following stable hold produces exactly one, timed from the last
stabilizing transition (conjunct 4, spec scenario 3: flips at 1, 11, 21,
then stable — the one report lands at time 71 = 21 + 50, sample index 70). -/
theorem C5_debounce_window :
    (∀ (s : Timer16.DebState) (now : Nat) (raw : Bool), raw ≠ s.button_state →
        Timer16.check_button s now raw =
          ({ button_state := raw, debounce_time := now, in_debounce := true }, false)) ∧
    (∀ (s : Timer16.DebState) (now : Nat) (raw : Bool),
        (Timer16.check_button s now raw).2 = true →
          raw = s.button_state ∧ s.in_debounce = true ∧
            Timer16.DEBOUNCE_MILLIS ≤ Timer16.debDelta now s.debounce_time) ∧
    (∀ (t : Nat) (b : Bool) (n : Nat),
        Timer16.runReports ⟨b, t % 1000, true⟩ (Timer16.stableTrace t b n) =
          (List.range n).map (fun i => b && decide (1 + i = 50))) ∧
    Timer16.runReports ⟨false, 0, false⟩ Timer16.bounceTrace =
      (List.range 100).map (fun i => decide (i = 70)) := by
  refine ⟨?_, ?_, ?_, ?_⟩
  · intro s now raw hne
    simp [Timer16.check_button, hne]
  · intro s now raw hrep
    simp only [Timer16.check_button] at hrep
    split_ifs at hrep with hne hid hth
    exact ⟨by push_neg at hne; exact hne, by simpa using hid, hth⟩
  · intro t b n
    exact runReports_stableFrom t b n 1 (by omega)
  · decide

/-- Witness for C5 at a concrete level change: the window restarts and no
report is produced. -/
theorem C5_witness :
    Timer16.check_button ⟨false, 0, false⟩ 7 true = (⟨true, 7, true⟩, false) :=
  C5_debounce_window.1 ⟨false, 0, false⟩ 7 true (by decide)

/-- C6: duty-cycle behaviour of the `Intellitimer_v2` variants.  (1) In the
button variant, after any iteration that leaves the system ON the load output
is asserted iff the 16-bit elapsed time modulo 223 is below 60; (2) each full
223-second period of elapsed time enables the load for exactly 60 of its 223
values; (3) the output is written only on a mismatch between actual and
desired level, so a mismatch changes the output exactly once and a repeat of
the same desired level writes nothing; (4) in the boot variant (implicit
`power_on_time = 0`) an iteration before the timeout leaves the load at
`now % 223 < 120`; (5) whose full period enables the load for exactly 120
values. -/
theorem C6_duty_cycle :
    (∀ (s : Intelli.IState) (now : Nat) (pressed : Bool),
        (Intelli.intelliStep s now pressed).led = true →
        ((Intelli.intelliStep s now pressed).load = true ↔
          sub16 now (Intelli.intelliStep s now pressed).power_on_time % 223 < 60)) ∧
    (∀ k : Nat,
        ((List.range 223).filter (fun i => Intelli.intelliDuty (k * 223 + i))).length = 60) ∧
    (∀ a b : Bool, (Intelli.dutyStep a b).1 = b ∧
        ((Intelli.dutyStep a b).2 = true ↔ a ≠ b) ∧
        (Intelli.dutyStep (Intelli.dutyStep a b).1 b).2 = false) ∧
    (∀ (s : BootState) (now : Nat), s.dead = false → now % 65536 < Boot.POWER_OFF_TIME →
        (Boot.bootStep s now).load = Boot.bootDuty (now % 65536)) ∧
    (∀ k : Nat,
        ((List.range 223).filter (fun i => Boot.bootDuty (k * 223 + i))).length = 120) := by
  have hlen60 : ((List.range 223).filter (fun i => decide (i < 60))).length = 60 := by
    rfl
  have hlen120 : ((List.range 223).filter (fun i => decide (i < 120))).length = 120 := by
    rfl
  refine ⟨?_, ?_, ?_, ?_, ?_⟩
  · intro s now pressed hled
    simp only [Intelli.intelliStep] at hled ⊢
    split_ifs at hled ⊢ with h1 h2 h3
    · simp [sub16_self]
    · simp [dutyStep_fst, Intelli.intelliDuty]
    · exact absurd hled h3
  · intro k
    have hcong : ∀ i ∈ List.range 223,
        Intelli.intelliDuty (k * 223 + i) = decide (i < 60) := by
      intro i hi
      simp only [List.mem_range] at hi
      simp only [Intelli.intelliDuty]
      have hmod : (k * 223 + i) % 223 = i := by omega
      rw [hmod]
    rw [List.filter_congr hcong]
    exact hlen60
  · intro a b
    cases a <;> cases b <;> simp [Intelli.dutyStep]
  · intro s now hdead hlt
    have hn : ¬(Boot.POWER_OFF_TIME ≤ now % 65536) := Nat.not_le.mpr hlt
    simp [Boot.bootStep, hdead, hn, dutyStep_fst]
  · intro k
    have hcong : ∀ i ∈ List.range 223,
        Boot.bootDuty (k * 223 + i) = decide (i < 120) := by
      intro i hi
      simp only [List.mem_range] at hi
      simp only [Boot.bootDuty]
      have hmod : (k * 223 + i) % 223 = i := by omega
      rw [hmod]
    rw [List.filter_congr hcong]
    exact hlen120

/-- Witness for C6: ten seconds into the ON period the load is asserted. -/
theorem C6_witness :
    (Intelli.intelliStep ⟨true, false, 0⟩ 10 false).load = true :=
  (C6_duty_cycle.1 ⟨true, false, 0⟩ 10 false (by decide)).mpr (by decide)

/-- C7: the skip-zero tick counters are never 0 after initialization: every
advance produces a nonzero value, so every value the read accessor can return
after the counter is initialized to 1 is nonzero; an increment that would
overflow to 0 lands on 1 instead, and a non-overflowing advance increments by
exactly 1.  Proved for the 16-bit `ticks_cnt` of `AC_Timer.c` and the 32-bit
`millis_cnt` of the first unnamed file. -/
theorem C7_skip_zero :
    (∀ c : Nat, ticks_advance c ≠ 0) ∧
    (∀ n : Nat, ticks_advance^[n] 1 ≠ 0) ∧
    ticks_advance 65535 = 1 ∧
    (∀ c : Nat, c + 1 < 65536 → ticks_advance c = c + 1) ∧
    (∀ c : Nat, millis_advance c ≠ 0) ∧
    millis_advance 4294967295 = 1 := by
  have hnz : ∀ c : Nat, ticks_advance c ≠ 0 := by
    intro c
    simp only [ticks_advance]
    split_ifs with h
    · rw [h]
      decide
    · exact h
  refine ⟨hnz, ?_, by decide, ?_, ?_, ?_⟩
  · intro n
    induction n with
    | zero => simp
    | succ n _ =>
      rw [Function.iterate_succ_apply']
      exact hnz _
  · intro c h
    have hm : (c + 1) % 65536 = c + 1 := Nat.mod_eq_of_lt h
    have h0 : ¬(c + 1 = 0) := by omega
    simp only [ticks_advance, hm, if_neg h0]
  · intro c
    simp only [millis_advance]
    split_ifs with h
    · rw [h]
      decide
    · exact h
  · decide

/-- Witness for C7: a plain advance increments by one. -/
theorem C7_witness : ticks_advance 5 = 6 :=
  C7_skip_zero.2.2.2.1 5 (by decide)

/-- C8: for any `now` and `debounce_time` in `[0, 999]`, the delta the code
computes — 16-bit unsigned subtraction, reinterpretation as signed 16-bit,
plus 1000 when negative — equals the true elapsed sub-ticks
`(now - debounce_time) mod 1000` across the wrap boundary. -/
theorem C8_wrap_delta :
    ∀ (now dt : Nat), now ≤ 999 → dt ≤ 999 →
      Timer16.debDelta now dt = ((now : Int) - (dt : Int)) % 1000 := by
  intro now dt h1 h2
  rw [debDelta_eq now dt h1 h2]
  omega

/-- Witness for C8 across the 1000 wrap boundary. -/
theorem C8_witness : Timer16.debDelta 3 998 = 5 :=
  (C8_wrap_delta 3 998 (by decide) (by decide)).trans (by decide)

/-- C9: `check_button` never reports a release: its returned value is nonzero
only when the sampled level is pressed (the active-low pin reads low), and a
release transition that completes its debounce window clears the waiting
state while returning 0.  Proved for the `in_debounce` debouncer of the
seconds variant and for the sentinel debouncer of `AC_Timer.c`. -/
theorem C9_press_only :
    (∀ (s : Timer16.DebState) (now : Nat) (raw : Bool),
        (Timer16.check_button s now raw).2 = true → raw = true) ∧
    (∀ (s : Timer16.DebState) (now : Nat), s.button_state = false → s.in_debounce = true →
        Timer16.DEBOUNCE_MILLIS ≤ Timer16.debDelta now s.debounce_time →
        Timer16.check_button s now false = ({ s with in_debounce := false }, false)) ∧
    (∀ (s : ACTimer.DebState) (now : Nat) (raw : Bool),
        (ACTimer.check_button s now raw).2 = true → raw = true) := by
  refine ⟨?_, ?_, ?_⟩
  · intro s now raw h
    simp only [Timer16.check_button] at h
    split_ifs at h
    exact h
  · intro s now hb hd hth
    simp [Timer16.check_button, hb, hd, hth]
  · intro s now raw h
    simp only [ACTimer.check_button] at h
    split_ifs at h
    exact h

/-- Witness for C9: a release completing its window clears the waiting state
and returns 0. -/
theorem C9_witness :
    Timer16.check_button ⟨false, 1, true⟩ 51 false = (⟨false, 1, false⟩, false) :=
  C9_press_only.2.1 ⟨false, 1, true⟩ 51 rfl rfl (by decide)

/-- C10: in the boot variant, an iteration that is not yet in the terminal
loop and whose seconds reading has reached `POWER_OFF_TIME` clears both the
load and the system-power outputs and enters the terminal loop; the terminal
loop changes nothing, so from the all-off terminal state every further run
leaves both outputs off forever. -/
theorem C10_terminal_power_off :
    (∀ (s : BootState) (now : Nat), s.dead = false → Boot.POWER_OFF_TIME ≤ now % 65536 →
        Boot.bootStep s now = { load := false, syspower := false, dead := true }) ∧
    (∀ (s : BootState) (now : Nat), s.dead = true → Boot.bootStep s now = s) ∧
    (∀ nows : List Nat,
        Boot.runBoot { load := false, syspower := false, dead := true } nows =
          { load := false, syspower := false, dead := true }) := by
  have hstep : ∀ (s : BootState) (now : Nat), s.dead = true → Boot.bootStep s now = s := by
    intro s now hd
    simp [Boot.bootStep, hd]
  refine ⟨?_, hstep, ?_⟩
  · intro s now hd hle
    simp [Boot.bootStep, hd, hle]
  · intro nows
    induction nows with
    | nil => rfl
    | cons x rest ih =>
      simp only [Boot.runBoot, List.foldl_cons] at ih ⊢
      rw [hstep _ x rfl]
      exact ih

/-- Witness for C10 at the timeout second. -/
theorem C10_witness :
    Boot.bootStep ⟨true, true, false⟩ 21600 = ⟨false, false, true⟩ :=
  C10_terminal_power_off.1 ⟨true, true, false⟩ 21600 rfl (by decide)
